import Mathlib

/-!
Verification of the vibecheck repository: a shallow embedding of the
AI chat route (`src/app/api/ai/chat/route.ts`) and the session-gating
middleware (`src/middleware.ts`), with theorems checking the
natural-language specification against this embedding.
-/

set_option maxRecDepth 40000

namespace Vibecheck

/-- JSON values, the possible results of a successful `req.json()` call. -/
inductive JVal where
  | null
  | bool (b : Bool)
  | num (n : Int)
  | str (s : String)
  | arr (elems : List JVal)
  | obj (fields : List (String × JVal))

/-- First-match field lookup in a JSON object (after `JSON.parse`, keys are
effectively unique, so first-match agrees with JavaScript object access). -/
def lookupField (fields : List (String × JVal)) (key : String) : Option JVal :=
  match fields with
  | [] => none
  | (k, v) :: rest => if k = key then some v else lookupField rest key

/-- The `currentFile` object of the request schema (route.ts lines 14-19). -/
structure CurrentFile where
  path : String
  content : String
deriving DecidableEq

/-- A Zod validation issue: the path of the offending field and an issue code,
as collected into `error.errors` by `z.object(...).parse`. -/
structure ZodIssue where
  path : List String
  code : String
deriving DecidableEq

/-- The parsed chat request (route.ts `requestSchema`, lines 12-20):
`messages` is a required array of arbitrary values (`z.array(z.any())`),
`currentFile` is optional with required string fields `path` and `content`. -/
structure ChatRequest where
  messages : List JVal
  currentFile : Option CurrentFile

/-- Extracts the string carried by an optional JSON value, if any. -/
def strVal : Option JVal → Option String
  | some (JVal.str s) => some s
  | _ => none

/-- The Zod issue reported for a missing or non-string required string field
of `currentFile`. -/
def reqIssue (field : String) : ZodIssue :=
  ⟨["currentFile", field], "invalid_type"⟩

/-- Validation of the `messages` field: required, must be an array
(`messages: z.array(z.any())`). Missing or non-array yields an issue. -/
def checkMessages (fields : List (String × JVal)) : Except ZodIssue (List JVal) :=
  match lookupField fields ("messages") with
  | some (JVal.arr xs) => Except.ok xs
  | _ => Except.error ⟨["messages"], "invalid_type"⟩

/-- Validation of the inner `currentFile` object: both `path` and `content`
must be strings; Zod collects one issue per failing field, `path` first. -/
def checkFileObj (cfs : List (String × JVal)) :
    Except (List ZodIssue) (Option CurrentFile) :=
  match strVal (lookupField cfs ("path")), strVal (lookupField cfs ("content")) with
  | some p, some c => Except.ok (some ⟨p, c⟩)
  | some _, none => Except.error [reqIssue ("content")]
  | none, some _ => Except.error [reqIssue ("path")]
  | none, none => Except.error [reqIssue ("path"), reqIssue ("content")]

/-- Validation of the optional `currentFile` field: absent is fine; when
present it must be an object whose `path` and `content` are strings
(`z.object(\x7b path: z.string(), content: z.string() \x7d).optional()`). -/
def checkCurrentFile (fields : List (String × JVal)) :
    Except (List ZodIssue) (Option CurrentFile) :=
  match lookupField fields ("currentFile") with
  | none => Except.ok none
  | some (JVal.obj cfs) => checkFileObj cfs
  | some _ => Except.error [⟨["currentFile"], "invalid_type"⟩]

/-- `requestSchema.parse(body)` (route.ts line 135): succeeds only on a JSON
object passing both field checks; otherwise throws a `ZodError` carrying the
collected issues. -/
def parseRequest (v : JVal) : Except (List ZodIssue) ChatRequest :=
  match v with
  | JVal.obj fields =>
    match checkMessages fields, checkCurrentFile fields with
    | Except.ok ms, Except.ok cf => Except.ok ⟨ms, cf⟩
    | Except.error i, Except.ok _ => Except.error [i]
    | Except.ok _, Except.error is => Except.error is
    | Except.error i, Except.error is => Except.error (i :: is)
  | _ => Except.error [⟨[], "invalid_type"⟩]

/-- Input to the `editFileWithPatch` executor (route.ts lines 78-94). -/
structure PatchInput where
  path : String
  diff : String
  explanation : String
deriving DecidableEq

/-- The record returned by the `editFileWithPatch` executor
(route.ts lines 98-104). -/
structure PatchProposal where
  path : String
  diff : String
  explanation : String
  status : String
  message : String
deriving DecidableEq

/-- The server-side executor of `editFileWithPatch` (route.ts lines 95-105):
packages its input, with `status: "pending_approval"` and a message
"Suggested edit to \x7bpath\x7d: \x7bexplanation\x7d"; it performs no file-system
access (it is a plain function of its input). -/
def editFileWithPatchExecute (i : PatchInput) : PatchProposal :=
  { path := i.path
    diff := i.diff
    explanation := i.explanation
    status := "pending_approval"
    message := "Suggested edit to " ++ i.path ++ ": " ++ i.explanation }

/-- A tool declaration in the registry: name, description, the named input
fields of its schema, whether an output schema is declared, and whether the
server defines an `execute` function for it. -/
structure ToolDecl where
  name : String
  description : String
  inputFields : List String
  hasOutputSchema : Bool
  hasExecutor : Bool
deriving DecidableEq

/-- Description string of `editFileWithPatch` (route.ts lines 68-77). -/
def editFileWithPatchDescription : String :=
  "Edit a file by applying a unified diff patch. Use this tool when you want to suggest changes to code files. \n    \nThe patch should be in unified diff format with:\n- File paths (--- and +++)\n- Hunk headers (@@ -start,count +start,count @@)\n- Context lines (starting with space)\n- Removed lines (starting with -)\n- Added lines (starting with +)\n\nInclude 3+ lines of context before and after changes for accurate patching."

/-- The tool registry (route.ts lines 23-107), in source order. Only
`editFileWithPatch` carries an `execute` function (modelled by
`editFileWithPatchExecute`); the other five declare schemas only. -/
def tools : List ToolDecl :=
  [ ⟨"listFiles", "List files in a directory", ["path"], false, false⟩,
    ⟨"readFile", "Read a file", ["path"], false, false⟩,
    ⟨"createFile", "Create a file", ["path", "content"], false, false⟩,
    ⟨"createFolder", "Create a folder", ["path"], false, false⟩,
    ⟨"runCommand", "Run a command", ["command", "cwd", "outputLimit"], true, false⟩,
    ⟨"editFileWithPatch", editFileWithPatchDescription,
      ["path", "diff", "explanation"], false, true⟩ ]

/-- Opening of the with-file system prompt, up to the interpolated path
(route.ts lines 141-144). -/
def fileA : String :=
  "You are an AI coding assistant integrated into a code editor, similar to Cursor AI.\n\nCurrent file being edited:\n- Path: "

/-- Between the interpolated path and the interpolated content
(route.ts lines 144-147). -/
def fileB : String :=
  "\n- Content:\n```\n"

/-- Between the interpolated content and the second interpolated path
(route.ts lines 147-163). -/
def fileC : String :=
  "\n```\n\nWhen suggesting code changes, you MUST use the editFileWithPatch tool:\n1. Call editFileWithPatch with the file path, diff patch, and explanation\n2. The diff should be in unified diff format with:\n   - File paths (--- and +++)\n   - Hunk headers (@@ -start,count +start,count @@)\n   - Context lines (starting with space)\n   - Removed lines (starting with -)\n   - Added lines (starting with +)\n3. Include at least 3 lines of context before and after changes\n4. Provide a clear explanation of what you\x27re changing and why\n\nExample tool call:\n\x7b\n  \"path\": \""

/-- Between the second and third interpolated paths (route.ts line 164). -/
def fileD : String :=
  "\",\n  \"diff\": \"--- "

/-- Between the third and fourth interpolated paths (route.ts line 164). -/
def fileE : String :=
  "\\n+++ "

/-- Tail of the with-file system prompt after the fourth interpolated path
(route.ts lines 164-168). -/
def fileF : String :=
  "\\n@@ -10,3 +10,3 @@\\n function test() \x7b\\n-  return false;\\n+  return true;\\n \x7d\",\n  \"explanation\": \"Changed return value from false to true to fix the logic\"\n\x7d\n\nThe user can then accept or reject your suggested changes in the UI."

/-- The with-file system prompt (route.ts lines 141-168): the template
literal with `currentFile.path` interpolated four times and
`currentFile.content` once. -/
def promptWithFile (cf : CurrentFile) : String :=
  fileA ++ cf.path ++ fileB ++ cf.content ++ fileC ++ cf.path ++ fileD ++ cf.path
    ++ fileE ++ cf.path ++ fileF

/-- The generic system prompt used when no `currentFile` is supplied
(route.ts line 169). -/
def genericPrompt : String :=
  "You are an AI coding assistant. Help the user with their coding questions. When you need to suggest code changes, use the editFileWithPatch tool."

/-- The composed system prompt (route.ts lines 140-169). -/
def systemPrompt (currentFile : Option CurrentFile) : String :=
  match currentFile with
  | some cf => promptWithFile cf
  | none => genericPrompt

/-- A user attached to a session. -/
structure SessionUser where
  id : String
deriving DecidableEq

/-- A session as returned by `auth.api.getSession`; the handler only
inspects `session?.user`. -/
structure Session where
  user : Option SessionUser
deriving DecidableEq

/-- The optional chain `session?.user` (route.ts line 117). -/
def sessionUser : Option Session → Option SessionUser
  | none => none
  | some s => s.user

/-- Result of `await req.json()` (route.ts line 122): either a parsed JSON
value or a thrown `SyntaxError` for a syntactically invalid body. -/
inductive BodyRead where
  | parsed (v : JVal)
  | syntaxError

/-- An exception escaping the `try` block of the handler: either the
`SyntaxError` from `req.json()` or a `ZodError` from `requestSchema.parse`. -/
inductive ChatError where
  | jsonSyntaxError
  | zodError (issues : List ZodIssue)

/-- Body of an HTTP response produced by the handler. -/
inductive ResponseBody where
  | text (s : String)
  | jsonError (error : String) (details : List ZodIssue)
  | stream (systemPromptUsed : String)
deriving DecidableEq

/-- An HTTP response together with whether the streaming model client
(`streamText`) was invoked while producing it. -/
structure ChatResponse where
  status : Nat
  body : ResponseBody
  modelCalled : Bool
deriving DecidableEq

/-- The `try` block of `POST` (route.ts lines 113-184): the session check
returns 401 before the body is read; then `req.json()` may throw; then
`requestSchema.parse` may throw; on success `streamText` is invoked with the
composed system prompt and the stream response is returned. -/
def chatHandlerTry (session : Option Session) (bodyRead : BodyRead) :
    Except ChatError ChatResponse :=
  match sessionUser session with
  | none => Except.ok ⟨401, ResponseBody.text "Unauthorized", false⟩
  | some _ =>
    match bodyRead with
    | BodyRead.syntaxError => Except.error ChatError.jsonSyntaxError
    | BodyRead.parsed v =>
      match parseRequest v with
      | Except.error issues => Except.error (ChatError.zodError issues)
      | Except.ok req =>
        Except.ok ⟨200, ResponseBody.stream (systemPrompt req.currentFile), true⟩

/-- The `POST` handler (route.ts lines 112-199): the `try` block plus the
`catch` (lines 185-198), which answers a `ZodError` with a 400 JSON body
`\x7b error: "Invalid request", details \x7d` and any other exception with a
500 plain-text body. -/
def POST (session : Option Session) (bodyRead : BodyRead) : ChatResponse :=
  match chatHandlerTry session bodyRead with
  | Except.ok r => r
  | Except.error (ChatError.zodError issues) =>
    ⟨400, ResponseBody.jsonError "Invalid request" issues, false⟩
  | Except.error ChatError.jsonSyntaxError =>
    ⟨500, ResponseBody.text "Internal Server Error", false⟩

/-- JavaScript `String.prototype.startsWith`, modelled on character lists. -/
def strStartsWith (s p : String) : Bool :=
  p.data.isPrefixOf s.data

/-- JavaScript `String.prototype.endsWith` (and the `$`-anchored regex
alternatives of the matcher), modelled on character lists. -/
def strEndsWith (s p : String) : Bool :=
  p.data.isSuffixOf s.data

/-- Middleware bypass for auth pages and API routes
(middleware.ts lines 9-15). -/
def isPublicPath (pathname : String) : Bool :=
  strStartsWith pathname ("/auth/login") || strStartsWith pathname ("/auth/signup") ||
    strStartsWith pathname ("/api/")

/-- The matcher regex of `config` (middleware.ts lines 35-46): the
middleware runs on every path EXCEPT those starting with `/_next/static`,
`/_next/image` or `/favicon.ico` (the unescaped regex dot is modelled as a
literal dot) and those ending in one of the listed image extensions. -/
def isExcludedByMatcher (pathname : String) : Bool :=
  strStartsWith pathname ("/_next/static") || strStartsWith pathname ("/_next/image") ||
    strStartsWith pathname ("/favicon.ico") ||
    strEndsWith pathname (".svg") || strEndsWith pathname (".png") ||
    strEndsWith pathname (".jpg") || strEndsWith pathname (".jpeg") ||
    strEndsWith pathname (".gif") || strEndsWith pathname (".webp")

/-- The redirect target built at middleware.ts lines 27-28: a URL at path
`/auth/login` whose `redirect` query parameter is set to the requested
pathname (`loginUrl.searchParams.set("redirect", pathname)`). -/
structure RedirectTarget where
  path : String
  redirectParam : String
deriving DecidableEq

/-- Action taken by the middleware. -/
inductive MwAction where
  | next
  | redirect (target : RedirectTarget)
deriving DecidableEq

/-- Outcome of one middleware invocation: whether the session endpoint was
queried (`betterFetch("/api/auth/get-session", ...)`), and the action. -/
structure MwOutcome where
  sessionLookedUp : Bool
  action : MwAction
deriving DecidableEq

/-- The `middleware` function (middleware.ts lines 5-33). `sessionData`
models `session.data` of the `betterFetch` call: `none` when the request
carries no valid session. Public paths return `NextResponse.next()` before
any session lookup. -/
def middleware (pathname : String) (sessionData : Option Unit) : MwOutcome :=
  if isPublicPath pathname then ⟨false, MwAction.next⟩
  else
    match sessionData with
    | none => ⟨true, MwAction.redirect ⟨"/auth/login", pathname⟩⟩
    | some _ => ⟨true, MwAction.next⟩

/-- Combined outcome of matcher plus middleware for one request. -/
inductive GateOutcome where
  | notInvoked
  | invoked (outcome : MwOutcome)
deriving DecidableEq

/-- The full route gate: the `config.matcher` decides whether `middleware`
runs at all; excluded paths are served without invoking it. -/
def routeGate (pathname : String) (sessionData : Option Unit) : GateOutcome :=
  if isExcludedByMatcher pathname then GateOutcome.notInvoked
  else GateOutcome.invoked (middleware pathname sessionData)

/-- Did the gate query the session endpoint? -/
def gateLookedUp : GateOutcome → Bool
  | GateOutcome.notInvoked => false
  | GateOutcome.invoked o => o.sessionLookedUp

/-- Did the gate answer with a redirect? -/
def gateRedirects : GateOutcome → Bool
  | GateOutcome.invoked ⟨_, MwAction.redirect _⟩ => true
  | _ => false

/-- The request body lacks the `messages` key. -/
def messagesMissing (fields : List (String × JVal)) : Bool :=
  (lookupField fields ("messages")).isNone

/-- The request body carries a `currentFile` that is not an object with
string `path` and `content` fields. -/
def currentFileMalformed (fields : List (String × JVal)) : Bool :=
  match lookupField fields ("currentFile") with
  | none => false
  | some (JVal.obj cfs) =>
    !((strVal (lookupField cfs ("path"))).isSome &&
      (strVal (lookupField cfs ("content"))).isSome)
  | some _ => true

/-- `sub` occurs as a contiguous substring of `s`. -/
def ContainsStr (s sub : String) : Prop :=
  List.IsInfix sub.data s.data

instance instContainsStrDecidable (s sub : String) : Decidable (ContainsStr s sub) :=
  List.decidableInfix sub.data s.data

theorem data_append (a b : String) : (a ++ b).data = a.data ++ b.data := by
  cases a
  cases b
  rfl

theorem containsStr_inl (s t sub : String) (h : ContainsStr s sub) :
    ContainsStr (s ++ t) sub := by
  obtain ⟨p, q, hpq⟩ := h
  exact ⟨p, q ++ t.data, by rw [data_append, ← hpq]; simp⟩

theorem containsStr_inr (s t sub : String) (h : ContainsStr t sub) :
    ContainsStr (s ++ t) sub := by
  obtain ⟨p, q, hpq⟩ := h
  exact ⟨s.data ++ p, q, by rw [data_append, ← hpq]; simp⟩

theorem containsStr_refl (s : String) : ContainsStr s s :=
  ⟨[], [], by simp⟩

/-! ## Theorems about the claims -/

theorem promptWithFile_contains_path (cf : CurrentFile) :
    ContainsStr (promptWithFile cf) cf.path := by
  unfold promptWithFile
  exact containsStr_inl _ _ _ (containsStr_inl _ _ _ (containsStr_inl _ _ _
    (containsStr_inl _ _ _ (containsStr_inl _ _ _ (containsStr_inl _ _ _
    (containsStr_inl _ _ _ (containsStr_inl _ _ _ (containsStr_inl _ _ _
    (containsStr_inr _ _ _ (containsStr_refl _))))))))))

theorem promptWithFile_contains_content (cf : CurrentFile) :
    ContainsStr (promptWithFile cf) cf.content := by
  unfold promptWithFile
  exact containsStr_inl _ _ _ (containsStr_inl _ _ _ (containsStr_inl _ _ _
    (containsStr_inl _ _ _ (containsStr_inl _ _ _ (containsStr_inl _ _ _
    (containsStr_inl _ _ _ (containsStr_inr _ _ _ (containsStr_refl _))))))))

theorem promptWithFile_contains_of_fileC (cf : CurrentFile) (sub : String)
    (h : ContainsStr fileC sub) : ContainsStr (promptWithFile cf) sub := by
  unfold promptWithFile
  exact containsStr_inl _ _ _ (containsStr_inl _ _ _ (containsStr_inl _ _ _
    (containsStr_inl _ _ _ (containsStr_inl _ _ _ (containsStr_inl _ _ _
    (containsStr_inr _ _ _ h))))))

/-- C1: the `editFileWithPatch` executor is a pure function of its input:
for every `\x7bpath, diff, explanation\x7d` it returns exactly the record with
those three fields passed through unchanged, `status = "pending_approval"`,
and the derived message; being a total Lean function of its argument, it is
deterministic and touches no external state. -/
theorem editFileWithPatch_executor_spec (i : PatchInput) :
    editFileWithPatchExecute i =
      ⟨i.path, i.diff, i.explanation, "pending_approval",
        "Suggested edit to " ++ i.path ++ ": " ++ i.explanation⟩ :=
  rfl

/-- C2: whenever the request headers resolve to no valid session
(`session?.user` is null), `POST` answers with status 401 and the streaming
model client is never invoked. -/
theorem post_unauthorized_no_model_call (session : Option Session)
    (bodyRead : BodyRead) (h : sessionUser session = none) :
    (POST session bodyRead).status = 401 ∧
    (POST session bodyRead).modelCalled = false := by
  simp [POST, chatHandlerTry, h]

theorem post_unauthorized_no_model_call_witness :
    (POST none (BodyRead.parsed (JVal.obj []))).status = 401 ∧
    (POST none (BodyRead.parsed (JVal.obj []))).modelCalled = false :=
  post_unauthorized_no_model_call none (BodyRead.parsed (JVal.obj [])) rfl

theorem checkMessages_error_of_missing (fields : List (String × JVal))
    (hm : messagesMissing fields = true) :
    checkMessages fields = Except.error ⟨["messages"], "invalid_type"⟩ := by
  unfold messagesMissing at hm
  cases hl : lookupField fields ("messages") with
  | none => simp [checkMessages, hl]
  | some v =>
    rw [hl] at hm
    simp at hm

theorem checkCurrentFile_error_of_malformed (fields : List (String × JVal))
    (hc : currentFileMalformed fields = true) :
    ∃ issues, issues ≠ [] ∧ checkCurrentFile fields = Except.error issues := by
  cases hl : lookupField fields ("currentFile") with
  | none => simp [currentFileMalformed, hl] at hc
  | some v =>
    cases v with
    | obj cfs =>
      cases hp : strVal (lookupField cfs ("path")) with
      | none =>
        cases hq : strVal (lookupField cfs ("content")) with
        | none =>
          refine ⟨[reqIssue ("path"), reqIssue ("content")], by simp, ?_⟩
          simp [checkCurrentFile, hl, checkFileObj, hp, hq]
        | some c =>
          refine ⟨[reqIssue ("path")], by simp, ?_⟩
          simp [checkCurrentFile, hl, checkFileObj, hp, hq]
      | some p =>
        cases hq : strVal (lookupField cfs ("content")) with
        | none =>
          refine ⟨[reqIssue ("content")], by simp, ?_⟩
          simp [checkCurrentFile, hl, checkFileObj, hp, hq]
        | some c =>
          have hf : currentFileMalformed fields = false := by
            simp [currentFileMalformed, hl, hp, hq]
          rw [hf] at hc
          exact Bool.noConfusion hc
    | null =>
      refine ⟨[⟨["currentFile"], "invalid_type"⟩], by simp, ?_⟩
      simp [checkCurrentFile, hl]
    | bool b =>
      refine ⟨[⟨["currentFile"], "invalid_type"⟩], by simp, ?_⟩
      simp [checkCurrentFile, hl]
    | num n =>
      refine ⟨[⟨["currentFile"], "invalid_type"⟩], by simp, ?_⟩
      simp [checkCurrentFile, hl]
    | str s =>
      refine ⟨[⟨["currentFile"], "invalid_type"⟩], by simp, ?_⟩
      simp [checkCurrentFile, hl]
    | arr xs =>
      refine ⟨[⟨["currentFile"], "invalid_type"⟩], by simp, ?_⟩
      simp [checkCurrentFile, hl]

theorem parseRequest_error_of_bad (fields : List (String × JVal))
    (h : messagesMissing fields = true ∨ currentFileMalformed fields = true) :
    ∃ issues, issues ≠ [] ∧ parseRequest (JVal.obj fields) = Except.error issues := by
  rcases h with hm | hc
  · have hcm := checkMessages_error_of_missing fields hm
    cases hcf : checkCurrentFile fields with
    | ok cf =>
      exact ⟨[⟨["messages"], "invalid_type"⟩], by simp,
        by simp [parseRequest, hcm, hcf]⟩
    | error is =>
      exact ⟨⟨["messages"], "invalid_type"⟩ :: is, by simp,
        by simp [parseRequest, hcm, hcf]⟩
  · obtain ⟨is, hne, hcfe⟩ := checkCurrentFile_error_of_malformed fields hc
    cases hm2 : checkMessages fields with
    | ok ms => exact ⟨is, hne, by simp [parseRequest, hm2, hcfe]⟩
    | error i => exact ⟨i :: is, by simp, by simp [parseRequest, hm2, hcfe]⟩

/-- C3: with a valid session, a parsed JSON body whose `messages` key is
missing (e.g. `\x7b\x7d`) or whose `currentFile` lacks the required string
fields makes `POST` answer 400 with body
`\x7b error: "Invalid request", details: issues \x7d`, without invoking the
model or opening a stream. -/
theorem post_invalid_body_400 (s : Session) (u : SessionUser)
    (fields : List (String × JVal)) (hu : s.user = some u)
    (h : messagesMissing fields = true ∨ currentFileMalformed fields = true) :
    ∃ issues, issues ≠ [] ∧
      POST (some s) (BodyRead.parsed (JVal.obj fields)) =
        ⟨400, ResponseBody.jsonError "Invalid request" issues, false⟩ := by
  obtain ⟨issues, hne, herr⟩ := parseRequest_error_of_bad fields h
  refine ⟨issues, hne, ?_⟩
  simp [POST, chatHandlerTry, sessionUser, hu, herr]

theorem post_invalid_body_400_witness :
    ∃ issues, issues ≠ [] ∧
      POST (some ⟨some ⟨"user-1"⟩⟩) (BodyRead.parsed (JVal.obj [])) =
        ⟨400, ResponseBody.jsonError "Invalid request" issues, false⟩ :=
  post_invalid_body_400 ⟨some ⟨"user-1"⟩⟩ ⟨"user-1"⟩ [] rfl (Or.inl rfl)

/-- C4 counterexample: at the concrete unauthorized request (no session,
body `\x7b\x7d`) the 401 response body is NOT empty — refuting the claim
that the 401 response has an empty body. -/
theorem post_unauthorized_body_not_empty :
    (POST none (BodyRead.parsed (JVal.obj []))).status = 401 ∧
    (POST none (BodyRead.parsed (JVal.obj []))).body ≠ ResponseBody.text "" := by
  decide

/-- C4 (amended): for every request failing the session check, the 401
response has the plain-text body "Unauthorized" (not an empty body). -/
theorem post_unauthorized_body_is_unauthorized (session : Option Session)
    (bodyRead : BodyRead) (h : sessionUser session = none) :
    (POST session bodyRead).status = 401 ∧
    (POST session bodyRead).body = ResponseBody.text "Unauthorized" := by
  simp [POST, chatHandlerTry, h]

theorem post_unauthorized_body_is_unauthorized_witness :
    (POST none BodyRead.syntaxError).status = 401 ∧
    (POST none BodyRead.syntaxError).body = ResponseBody.text "Unauthorized" :=
  post_unauthorized_body_is_unauthorized none BodyRead.syntaxError rfl

/-- C5: when `currentFile` is present the composed system prompt embeds its
path and content verbatim, mandates the `editFileWithPatch` tool, states the
unified-diff requirements (hunk headers, at least 3 lines of context) and
requires an explanation; when absent, the prompt is the generic guidance
that still directs the model to the `editFileWithPatch` tool. -/
theorem systemPrompt_content_spec :
    (∀ cf : CurrentFile,
      ContainsStr (systemPrompt (some cf)) cf.path ∧
      ContainsStr (systemPrompt (some cf)) cf.content ∧
      ContainsStr (systemPrompt (some cf))
        ("When suggesting code changes, you MUST use the editFileWithPatch tool") ∧
      ContainsStr (systemPrompt (some cf)) ("unified diff format") ∧
      ContainsStr (systemPrompt (some cf))
        ("Hunk headers (@@ -start,count +start,count @@)") ∧
      ContainsStr (systemPrompt (some cf))
        ("Include at least 3 lines of context before and after changes") ∧
      ContainsStr (systemPrompt (some cf))
        ("Provide a clear explanation of what you\x27re changing and why")) ∧
    systemPrompt none = genericPrompt ∧
    ContainsStr genericPrompt ("use the editFileWithPatch tool") := by
  refine ⟨?_, rfl, by decide⟩
  intro cf
  exact ⟨promptWithFile_contains_path cf, promptWithFile_contains_content cf,
    promptWithFile_contains_of_fileC cf _ (by decide),
    promptWithFile_contains_of_fileC cf _ (by decide),
    promptWithFile_contains_of_fileC cf _ (by decide),
    promptWithFile_contains_of_fileC cf _ (by decide),
    promptWithFile_contains_of_fileC cf _ (by decide)⟩

/-- C6: prompt composition is deterministic — computing the system prompt
twice from identical `currentFile` input yields identical strings. -/
theorem systemPrompt_deterministic (a b : Option CurrentFile) (h : a = b) :
    systemPrompt a = systemPrompt b := by
  rw [h]

theorem systemPrompt_deterministic_witness :
    systemPrompt (some ⟨"/src/a.ts", "function f()\x7b\x7d"⟩) =
      systemPrompt (some ⟨"/src/a.ts", "function f()\x7b\x7d"⟩) :=
  systemPrompt_deterministic (some ⟨"/src/a.ts", "function f()\x7b\x7d"⟩)
    (some ⟨"/src/a.ts", "function f()\x7b\x7d"⟩) rfl

/-- C7: the tool registry holds exactly the six tools `listFiles`,
`readFile`, `createFile`, `createFolder`, `runCommand`,
`editFileWithPatch`, with pairwise-distinct names; only `editFileWithPatch`
carries a server-side executor, the other five are declarations only. -/
theorem tools_registry_spec :
    tools.map ToolDecl.name =
      ["listFiles", "readFile", "createFile", "createFolder", "runCommand",
        "editFileWithPatch"] ∧
    (tools.map ToolDecl.name).Nodup ∧
    (tools.filter ToolDecl.hasExecutor).map ToolDecl.name = ["editFileWithPatch"] ∧
    (tools.filter (fun t => !t.hasExecutor)).map ToolDecl.name =
      ["listFiles", "readFile", "createFile", "createFolder", "runCommand"] := by
  decide

/-- C8: an unauthenticated request to a protected page path (one the
middleware runs on that is neither an auth page nor an API route) is
redirected to `/auth/login` with the requested pathname preserved in the
`redirect` query parameter. -/
theorem middleware_redirects_to_login (pathname : String)
    (h : isPublicPath pathname = false) :
    middleware pathname none =
      ⟨true, MwAction.redirect ⟨"/auth/login", pathname⟩⟩ := by
  simp [middleware, h]

theorem middleware_redirects_to_login_witness :
    middleware ("/dashboard") none =
      ⟨true, MwAction.redirect ⟨"/auth/login", "/dashboard"⟩⟩ :=
  middleware_redirects_to_login ("/dashboard") (by decide)

/-- C9: with a valid session, a syntactically invalid JSON body makes
`POST` answer 500 with plain-text body "Internal Server Error" — the
`SyntaxError` thrown by `req.json()` is not a `ZodError`, so the structured
400 validation response is never produced for it. -/
theorem post_malformed_json_500 (s : Session) (u : SessionUser)
    (hu : s.user = some u) :
    POST (some s) BodyRead.syntaxError =
      ⟨500, ResponseBody.text "Internal Server Error", false⟩ := by
  simp [POST, chatHandlerTry, sessionUser, hu]

theorem post_malformed_json_500_witness :
    POST (some ⟨some ⟨"user-2"⟩⟩) BodyRead.syntaxError =
      ⟨500, ResponseBody.text "Internal Server Error", false⟩ :=
  post_malformed_json_500 ⟨some ⟨"user-2"⟩⟩ ⟨"user-2"⟩ rfl

/-- C10: requests excluded by the static-asset matcher, and requests to
`/auth/login`, `/auth/signup` or `/api/` paths, bypass the session check
entirely: no session lookup is performed and no redirect is issued,
whether or not a session is present. -/
theorem gate_bypass_no_lookup_no_redirect (pathname : String)
    (sessionData : Option Unit)
    (h : isExcludedByMatcher pathname = true ∨ isPublicPath pathname = true) :
    gateLookedUp (routeGate pathname sessionData) = false ∧
    gateRedirects (routeGate pathname sessionData) = false := by
  rcases h with h | h
  · simp [routeGate, h, gateLookedUp, gateRedirects]
  · unfold routeGate
    cases hm : isExcludedByMatcher pathname with
    | false => simp [middleware, h, gateLookedUp, gateRedirects]
    | true => simp [gateLookedUp, gateRedirects]

theorem gate_bypass_no_lookup_no_redirect_witness :
    gateLookedUp (routeGate ("/_next/static/chunks/main.js") (some ())) = false ∧
    gateRedirects (routeGate ("/_next/static/chunks/main.js") (some ())) = false :=
  gate_bypass_no_lookup_no_redirect ("/_next/static/chunks/main.js") (some ())
    (Or.inl (by decide))

end Vibecheck
